import Mathlib

/-!
Verification of src/lib/layers.py (vocal-remover building-block modules).

The file is shallowly embedded over rational-valued dense 4-D tensors:
a tensor is a shape (n, c, h, w) together with a total data function on
natural-number indices (entries outside the shape are irrelevant junk, and
all statements about contents are made on in-range indices).  Pointwise
framework primitives (convolution, nearest/bilinear interpolation,
concatenation, repeat, mean) are translated from their PyTorch semantics.
Batch normalisation is embedded at fixed (trained) statistics, i.e. as the
per-channel affine map it computes at inference; the LSTM is embedded as a
genuine bidirectional recurrence whose per-step cell function is a module
parameter (the gate equations live in the framework, not in this file).
Dropout2d is embedded with its sampled channel mask made explicit: during
training a kept channel is scaled by 1/(1-0.1) = 10/9 and a dropped channel
is zeroed; outside training it is the identity.
The explicit ValueError raised by crop_center is an Except.error; the
runtime shape checks of nn.LSTM (input width) and nn.Linear (matmul width)
in LSTMModule.forward are modelled by Option.  The remaining framework
shape checks — torch.cat agreement on the non-concatenated dimensions and
the Conv2d input-channel-count and effective-kernel-size checks — are
modelled by the Checked variants (catDim1Checked,
Conv2DBNActiv.forwardChecked, Decoder.forwardChecked) near the end of the
file; the unchecked functions compute the values the framework produces on
shape-correct calls.
-/

structure Tensor4 where
  n : Nat
  c : Nat
  h : Nat
  w : Nat
  data : Nat → Nat → Nat → Nat → ℚ

structure Tensor3 where
  d0 : Nat
  d1 : Nat
  d2 : Nat
  data : Nat → Nat → Nat → ℚ

/-- crop_center from src/lib/layers.py: compares the last (time) dimension,
returns h1 unchanged on equality, raises on h1 narrower than h2, otherwise
slices h1[:, :, :, s_time:e_time] with s_time = (W1 - W2) // 2.  The slice
width is min e_time W1 - s_time, exactly as Python slicing computes it. -/
def crop_center (h1 h2 : Tensor4) : Except String Tensor4 :=
  if h1.w = h2.w then
    Except.ok h1
  else if h1.w < h2.w then
    Except.error "h1_shape[3] must be greater than h2_shape[3]"
  else
    Except.ok
      { n := h1.n, c := h1.c, h := h1.h
        w := min ((h1.w - h2.w) / 2 + h2.w) h1.w - (h1.w - h2.w) / 2
        data := fun a b c d => h1.data a b c ((h1.w - h2.w) / 2 + d) }

lemma crop_center_total (h1 h2 : Tensor4) (hle : h2.w ≤ h1.w) :
    ∃ y, crop_center h1 h2 = Except.ok y ∧ y.n = h1.n ∧ y.c = h1.c ∧
      y.h = h1.h ∧ y.w = h2.w ∧
      ∀ a b c d, y.data a b c d = h1.data a b c ((h1.w - h2.w) / 2 + d) := by
  by_cases heq : h1.w = h2.w
  · refine ⟨h1, ?_, rfl, rfl, rfl, heq, ?_⟩
    · unfold crop_center
      simp [heq]
    · intro a b c d
      have hz : h1.w - h2.w = 0 := by omega
      simp [hz]
  · have hlt : h2.w < h1.w := lt_of_le_of_ne hle (fun hcon => heq hcon.symm)
    refine ⟨{ n := h1.n, c := h1.c, h := h1.h
              w := min ((h1.w - h2.w) / 2 + h2.w) h1.w - (h1.w - h2.w) / 2
              data := fun a b c d => h1.data a b c ((h1.w - h2.w) / 2 + d) },
            ?_, rfl, rfl, rfl, ?_, fun a b c d => rfl⟩
    · unfold crop_center
      simp [heq, not_lt_of_lt hlt]
    · show min ((h1.w - h2.w) / 2 + h2.w) h1.w - (h1.w - h2.w) / 2 = h2.w
      omega

lemma crop_center_error_iff (h1 h2 : Tensor4) :
    (∃ e, crop_center h1 h2 = Except.error e) ↔ h1.w < h2.w := by
  unfold crop_center
  by_cases heq : h1.w = h2.w
  · simp [heq]
  · by_cases hlt : h1.w < h2.w
    · simp [heq, hlt]
    · simp [heq, hlt]

/-- C1: crop_center returns h1 unchanged when the two last dimensions agree;
when h1 is wider it returns h1 restricted along dimension 3 to the index
range [s, s + h2.w) with s = (h1.w - h2.w) / 2, so the result's last
dimension equals h2.w and its entries are the correspondingly shifted
entries of h1. -/
theorem crop_center_match_and_slice (h1 h2 : Tensor4) :
    (h1.w = h2.w → crop_center h1 h2 = Except.ok h1) ∧
    (h2.w < h1.w → ∃ y, crop_center h1 h2 = Except.ok y ∧ y.w = h2.w ∧
      y.n = h1.n ∧ y.c = h1.c ∧ y.h = h1.h ∧
      ∀ a b c d, d < h2.w →
        y.data a b c d = h1.data a b c ((h1.w - h2.w) / 2 + d)) := by
  constructor
  · intro heq
    unfold crop_center
    simp [heq]
  · intro hlt
    obtain ⟨y, hok, hn, hc, hh, hw, hdata⟩ := crop_center_total h1 h2 (le_of_lt hlt)
    exact ⟨y, hok, hw, hn, hc, hh, fun a b c d _ => hdata a b c d⟩

/-- Concrete tensors used to instantiate the crop_center theorems. -/
def tIdx10 : Tensor4 := ⟨2, 3, 7, 10, fun _ _ _ d => (d : ℚ)⟩

def tZero4 : Tensor4 := ⟨2, 3, 2, 4, fun _ _ _ _ => 0⟩

def tFive3 : Tensor4 := ⟨1, 1, 1, 3, fun _ _ _ _ => 5⟩

def tZero3 : Tensor4 := ⟨1, 1, 1, 3, fun _ _ _ _ => 0⟩

def tIdx5 : Tensor4 := ⟨1, 1, 1, 5, fun _ _ _ d => (d : ℚ)⟩

/-- C1 witness: instantiation of both branches at concrete tensors. -/
theorem crop_center_match_and_slice_witness :
    (crop_center tFive3 tZero3 = Except.ok tFive3) ∧
    (∃ y, crop_center tIdx5 tZero3 = Except.ok y ∧ y.w = tZero3.w ∧
      y.n = tIdx5.n ∧ y.c = tIdx5.c ∧ y.h = tIdx5.h ∧
      ∀ a b c d, d < tZero3.w →
        y.data a b c d = tIdx5.data a b c ((tIdx5.w - tZero3.w) / 2 + d)) :=
  ⟨(crop_center_match_and_slice tFive3 tZero3).1 rfl,
   (crop_center_match_and_slice tIdx5 tZero3).2 (by decide)⟩

/-- C8: crop_center is idempotent in its first argument: on the non-raising
domain, cropping the cropped result against the same reference is the
identity, i.e. bind (crop_center h1 h2) (fun y => crop_center y h2) equals
crop_center h1 h2. -/
theorem crop_center_idempotent (h1 h2 : Tensor4) (hle : h2.w ≤ h1.w) :
    (crop_center h1 h2).bind (fun y => crop_center y h2) = crop_center h1 h2 := by
  obtain ⟨y, hok, _, _, _, hw, _⟩ := crop_center_total h1 h2 hle
  rw [hok]
  show crop_center y h2 = Except.ok y
  unfold crop_center
  simp [hw]

/-- C8 witness: idempotence at a concrete wider tensor. -/
theorem crop_center_idempotent_witness :
    (crop_center tIdx10 tZero4).bind (fun y => crop_center y tZero4) =
      crop_center tIdx10 tZero4 :=
  crop_center_idempotent tIdx10 tZero4 (by decide)

/-- C9: crop_center only restricts the last (time) axis: under the
non-raising precondition the result keeps h1's sizes on dimensions 0, 1, 2
(in particular the frequency axis, dimension 2, is never cropped, whatever
h2's height is) and every entry comes from h1 at the same leading indices,
only the time index being shifted. -/
theorem crop_center_frame (h1 h2 : Tensor4) (hle : h2.w ≤ h1.w) :
    ∃ y, crop_center h1 h2 = Except.ok y ∧
      y.n = h1.n ∧ y.c = h1.c ∧ y.h = h1.h ∧
      ∀ a b c d, d < y.w →
        y.data a b c d = h1.data a b c ((h1.w - h2.w) / 2 + d) := by
  obtain ⟨y, hok, hn, hc, hh, _, hdata⟩ := crop_center_total h1 h2 hle
  exact ⟨y, hok, hn, hc, hh, fun a b c d _ => hdata a b c d⟩

/-- C9 witness: leading dimensions survive at a concrete pair whose heights
differ (height 7 versus height 2), showing the frequency axis is untouched. -/
theorem crop_center_frame_witness :
    ∃ y, crop_center tIdx10 tZero4 = Except.ok y ∧
      y.n = tIdx10.n ∧ y.c = tIdx10.c ∧ y.h = tIdx10.h ∧
      ∀ a b c d, d < y.w →
        y.data a b c d = tIdx10.data a b c ((tIdx10.w - tZero4.w) / 2 + d) :=
  crop_center_frame tIdx10 tZero4 (by decide)

/-- Activation classes instantiated in the file (nn.ReLU, nn.LeakyReLU with
the framework default slope 0.01). -/
inductive Activ
  | relu
  | leakyRelu

def Activ.apply : Activ → ℚ → ℚ
  | Activ.relu, v => max 0 v
  | Activ.leakyRelu, v => if v < 0 then v / 100 else v

/-- Trained parameters of one Conv2d + BatchNorm2d pair: the convolution
kernel and the per-channel affine map the batch norm computes at its fixed
(trained) statistics. -/
structure ConvParams where
  weight : Nat → Nat → Nat → Nat → ℚ
  bnScale : Nat → ℚ
  bnShift : Nat → ℚ

/-- Conv2d output length along one spatial axis:
(len + 2*pad - dilation*(ksize-1) - 1) / stride + 1. -/
def convOut (len ksize stride pad dilation : Nat) : Nat :=
  (len + 2 * pad - (dilation * (ksize - 1) + 1)) / stride + 1

/-- Zero-padded accessor for the spatial dimensions. -/
def Tensor4.padGet (x : Tensor4) (pad : Nat) (b c i j : Nat) : ℚ :=
  if pad ≤ i ∧ i < x.h + pad ∧ pad ≤ j ∧ j < x.w + pad then
    x.data b c (i - pad) (j - pad)
  else 0

/-- Conv2DBNActiv from src/lib/layers.py: Conv2d (bias=False) followed by
BatchNorm2d and the activation. -/
structure Conv2DBNActiv where
  nin : Nat
  nout : Nat
  ksize : Nat
  stride : Nat
  pad : Nat
  dilation : Nat
  weight : Nat → Nat → Nat → Nat → ℚ
  bnScale : Nat → ℚ
  bnShift : Nat → ℚ
  activ : Activ

def Conv2DBNActiv.make (nin nout ksize stride pad dilation : Nat) (activ : Activ)
    (p : ConvParams) : Conv2DBNActiv :=
  ⟨nin, nout, ksize, stride, pad, dilation, p.weight, p.bnScale, p.bnShift, activ⟩

def Conv2DBNActiv.forward (l : Conv2DBNActiv) (x : Tensor4) : Tensor4 :=
  ⟨x.n, l.nout, convOut x.h l.ksize l.stride l.pad l.dilation,
    convOut x.w l.ksize l.stride l.pad l.dilation,
    fun b o i j =>
      Activ.apply l.activ (l.bnScale o *
        (∑ cc in Finset.range l.nin, ∑ p in Finset.range l.ksize,
          ∑ q in Finset.range l.ksize,
            l.weight o cc p q *
              x.padGet l.pad b cc (i * l.stride + p * l.dilation)
                (j * l.stride + q * l.dilation)) +
        l.bnShift o)⟩

/-- Encoder from src/lib/layers.py: conv1 (given stride) then conv2 (stride 1). -/
structure Encoder where
  conv1 : Conv2DBNActiv
  conv2 : Conv2DBNActiv

def Encoder.make (nin nout ksize stride pad : Nat) (activ : Activ)
    (p1 p2 : ConvParams) : Encoder :=
  ⟨Conv2DBNActiv.make nin nout ksize stride pad 1 activ p1,
   Conv2DBNActiv.make nout nout ksize 1 pad 1 activ p2⟩

def Encoder.forward (m : Encoder) (x : Tensor4) : Tensor4 :=
  m.conv2.forward (m.conv1.forward x)

/-- torch.cat along dim 1 (channels); the callers concatenate tensors whose
other dimensions agree. -/
def catDim1 : List Tensor4 → Tensor4
  | [] => ⟨0, 0, 0, 0, fun _ _ _ _ => 0⟩
  | [t] => t
  | t :: ts =>
    let rest := catDim1 ts
    ⟨t.n, t.c + rest.c, t.h, t.w, fun b cc i j =>
      if cc < t.c then t.data b cc i j else rest.data b (cc - t.c) i j⟩

/-- F.interpolate(x, scale_factor=2, mode='nearest'). -/
def interpNearest2x (x : Tensor4) : Tensor4 :=
  ⟨x.n, x.c, 2 * x.h, 2 * x.w, fun b c i j => x.data b c (i / 2) (j / 2)⟩

/-- Source coordinate used by align_corners=True interpolation:
i * (nIn - 1) / (nOut - 1), or 0 for a degenerate output axis. -/
def interpCoord (i nIn nOut : Nat) : ℚ :=
  if nOut ≤ 1 then 0 else (i : ℚ) * ((nIn : ℚ) - 1) / ((nOut : ℚ) - 1)

/-- F.interpolate(x, scale_factor=2, mode='bilinear', align_corners=True). -/
def interpBilinear2x (x : Tensor4) : Tensor4 :=
  ⟨x.n, x.c, 2 * x.h, 2 * x.w, fun b c i j =>
    let rI := interpCoord i x.h (2 * x.h)
    let i0 := (Rat.floor rI).toNat
    let i1 := min (i0 + 1) (x.h - 1)
    let ti := rI - (i0 : ℚ)
    let rJ := interpCoord j x.w (2 * x.w)
    let j0 := (Rat.floor rJ).toNat
    let j1 := min (j0 + 1) (x.w - 1)
    let tj := rJ - (j0 : ℚ)
    (1 - ti) * ((1 - tj) * x.data b c i0 j0 + tj * x.data b c i0 j1) +
      ti * ((1 - tj) * x.data b c i1 j0 + tj * x.data b c i1 j1)⟩

/-- nn.Dropout2d(0.1) with the sampled channel mask explicit: during
training a kept channel is scaled by 1/(1-0.1) = 10/9 and a dropped channel
is zeroed; when absent (present = false) or outside training it is the
identity. -/
def dropout2dApply (present training : Bool) (mask : Nat → Nat → Bool)
    (x : Tensor4) : Tensor4 :=
  if present && training then
    ⟨x.n, x.c, x.h, x.w, fun b c i j =>
      if mask b c then (10 / 9 : ℚ) * x.data b c i j else 0⟩
  else x

/-- Decoder from src/lib/layers.py.  Its __init__ ignores the stride
argument: conv1 is built with stride 1. -/
structure Decoder where
  conv1 : Conv2DBNActiv
  dropout : Bool

def Decoder.make (nin nout ksize stride pad : Nat) (activ : Activ) (dropout : Bool)
    (p : ConvParams) : Decoder :=
  ⟨Conv2DBNActiv.make nin nout ksize 1 pad 1 activ p, dropout⟩

def Decoder.forward (m : Decoder) (training : Bool) (mask : Nat → Nat → Bool)
    (x : Tensor4) (skip : Option Tensor4) (fixed_length : Bool) :
    Except String Tensor4 :=
  let xu := if fixed_length then interpBilinear2x x else interpNearest2x x
  match skip with
  | none => Except.ok (dropout2dApply m.dropout training mask (m.conv1.forward xu))
  | some s =>
    match crop_center s xu with
    | Except.error e => Except.error e
    | Except.ok sc =>
      Except.ok (dropout2dApply m.dropout training mask
        (m.conv1.forward (catDim1 [xu, sc])))

lemma interp_if_w (x : Tensor4) (fl : Bool) :
    (if fl then interpBilinear2x x else interpNearest2x x).w = 2 * x.w := by
  cases fl <;> rfl

/-- C7: Decoder.forward upsamples by scale factor 2 (bilinear with
align_corners=True when fixed_length, nearest otherwise), then, if and only
if a skip tensor is given, center-crops the skip to the upsampled tensor's
time width and concatenates the two along the channel dimension, then
applies the convolution block, and finally applies dropout exactly when the
module was built with dropout=True. -/
theorem decoder_forward_pipeline (m : Decoder) (tr : Bool)
    (mask : Nat → Nat → Bool) (x s : Tensor4) (fl : Bool)
    (hs : 2 * x.w ≤ s.w) :
    (interpBilinear2x x).h = 2 * x.h ∧ (interpBilinear2x x).w = 2 * x.w ∧
    (interpNearest2x x).h = 2 * x.h ∧ (interpNearest2x x).w = 2 * x.w ∧
    (∀ fl2, Decoder.forward m tr mask x none fl2 =
      Except.ok (dropout2dApply m.dropout tr mask (m.conv1.forward
        (if fl2 then interpBilinear2x x else interpNearest2x x)))) ∧
    (∃ sc, crop_center s (if fl then interpBilinear2x x else interpNearest2x x) =
        Except.ok sc ∧
      sc.w = 2 * x.w ∧ sc.n = s.n ∧ sc.c = s.c ∧ sc.h = s.h ∧
      (catDim1 [if fl then interpBilinear2x x else interpNearest2x x, sc]).c =
        x.c + sc.c ∧
      Decoder.forward m tr mask x (some s) fl =
        Except.ok (dropout2dApply m.dropout tr mask (m.conv1.forward
          (catDim1 [if fl then interpBilinear2x x else interpNearest2x x, sc])))) ∧
    (m.dropout = false → ∀ y, dropout2dApply m.dropout tr mask y = y) := by
  have hxw : (if fl then interpBilinear2x x else interpNearest2x x).w = 2 * x.w :=
    interp_if_w x fl
  obtain ⟨sc, hok, hn, hc, hh, hw, _⟩ :=
    crop_center_total s (if fl then interpBilinear2x x else interpNearest2x x)
      (by rw [hxw]; exact hs)
  refine ⟨rfl, rfl, rfl, rfl, fun fl2 => rfl, ⟨sc, hok, ?_, hn, hc, hh, ?_, ?_⟩, ?_⟩
  · rw [hw, hxw]
  · cases fl <;> rfl
  · simp only [Decoder.forward, hok]
  · intro hd y
    rw [hd]
    simp [dropout2dApply]

/-- C7 witness: the pipeline at a concrete Decoder, input and skip tensor. -/
theorem decoder_forward_pipeline_witness :
    (interpBilinear2x tZero3).h = 2 * tZero3.h ∧
    (interpBilinear2x tZero3).w = 2 * tZero3.w ∧
    (interpNearest2x tZero3).h = 2 * tZero3.h ∧
    (interpNearest2x tZero3).w = 2 * tZero3.w ∧
    (∀ fl2, Decoder.forward (Decoder.make 1 1 3 1 1 Activ.relu false
          ⟨fun _ _ _ _ => 1, fun _ => 1, fun _ => 0⟩) true (fun _ _ => true)
        tZero3 none fl2 =
      Except.ok (dropout2dApply (Decoder.make 1 1 3 1 1 Activ.relu false
          ⟨fun _ _ _ _ => 1, fun _ => 1, fun _ => 0⟩).dropout true (fun _ _ => true)
        ((Decoder.make 1 1 3 1 1 Activ.relu false
          ⟨fun _ _ _ _ => 1, fun _ => 1, fun _ => 0⟩).conv1.forward
        (if fl2 then interpBilinear2x tZero3 else interpNearest2x tZero3)))) ∧
    (∃ sc, crop_center tIdx10
        (if true then interpBilinear2x tZero3 else interpNearest2x tZero3) =
        Except.ok sc ∧
      sc.w = 2 * tZero3.w ∧ sc.n = tIdx10.n ∧ sc.c = tIdx10.c ∧ sc.h = tIdx10.h ∧
      (catDim1 [if true then interpBilinear2x tZero3 else interpNearest2x tZero3,
        sc]).c = tZero3.c + sc.c ∧
      Decoder.forward (Decoder.make 1 1 3 1 1 Activ.relu false
          ⟨fun _ _ _ _ => 1, fun _ => 1, fun _ => 0⟩) true (fun _ _ => true)
        tZero3 (some tIdx10) true =
        Except.ok (dropout2dApply (Decoder.make 1 1 3 1 1 Activ.relu false
            ⟨fun _ _ _ _ => 1, fun _ => 1, fun _ => 0⟩).dropout true (fun _ _ => true)
          ((Decoder.make 1 1 3 1 1 Activ.relu false
            ⟨fun _ _ _ _ => 1, fun _ => 1, fun _ => 0⟩).conv1.forward
          (catDim1 [if true then interpBilinear2x tZero3
            else interpNearest2x tZero3, sc])))) ∧
    ((Decoder.make 1 1 3 1 1 Activ.relu false
        ⟨fun _ _ _ _ => 1, fun _ => 1, fun _ => 0⟩).dropout = false →
      ∀ y, dropout2dApply (Decoder.make 1 1 3 1 1 Activ.relu false
        ⟨fun _ _ _ _ => 1, fun _ => 1, fun _ => 0⟩).dropout true (fun _ _ => true) y = y) :=
  decoder_forward_pipeline (Decoder.make 1 1 3 1 1 Activ.relu false
    ⟨fun _ _ _ _ => 1, fun _ => 1, fun _ => 0⟩) true (fun _ _ => true)
    tZero3 tIdx10 true (by decide)

/-- Mean(dim=-2, keepdims=True) as instantiated inside ASPPModule.conv1:
the mean over the frequency axis with the axis kept at size 1. -/
def meanDim2Keep (x : Tensor4) : Tensor4 :=
  ⟨x.n, x.c, 1, x.w, fun b c _ j =>
    (∑ i in Finset.range x.h, x.data b c i j) / (x.h : ℚ)⟩

/-- Tensor.repeat(r0, r1, r2, r3): tiles the tensor, multiplying each size. -/
def Tensor4.repeat4 (x : Tensor4) (r0 r1 r2 r3 : Nat) : Tensor4 :=
  ⟨x.n * r0, x.c * r1, x.h * r2, x.w * r3,
   fun b c i j => x.data (b % x.n) (c % x.c) (i % x.h) (j % x.w)⟩

/-- ASPPModule from src/lib/layers.py. -/
structure ASPPModule where
  conv1 : Conv2DBNActiv
  conv2 : Conv2DBNActiv
  conv3 : Conv2DBNActiv
  conv4 : Conv2DBNActiv
  conv5 : Conv2DBNActiv
  bottleneck : Conv2DBNActiv
  dropout : Bool

/-- ASPPModule.__init__: conv1 is Mean followed by a 1x1 conv (the Mean part
is applied inside feat1 below), conv2 a 1x1 conv, conv3-conv5 3x3 convs with
pad = dilation taken from the dilations tuple, and a 1x1 bottleneck over
nout * 5 channels. -/
def ASPPModule.make (nin nout d1 d2 d3 : Nat) (activ : Activ) (dropout : Bool)
    (p1 p2 p3 p4 p5 p6 : ConvParams) : ASPPModule :=
  ⟨Conv2DBNActiv.make nin nout 1 1 0 1 activ p1,
   Conv2DBNActiv.make nin nout 1 1 0 1 activ p2,
   Conv2DBNActiv.make nin nout 3 1 d1 d1 activ p3,
   Conv2DBNActiv.make nin nout 3 1 d2 d2 activ p4,
   Conv2DBNActiv.make nin nout 3 1 d3 d3 activ p5,
   Conv2DBNActiv.make (nout * 5) nout 1 1 0 1 activ p6,
   dropout⟩

/-- feat1 = self.conv1(x).repeat(1, 1, h, 1). -/
def ASPPModule.feat1 (m : ASPPModule) (x : Tensor4) : Tensor4 :=
  (m.conv1.forward (meanDim2Keep x)).repeat4 1 1 x.h 1

/-- out = torch.cat((feat1, feat2, feat3, feat4, feat5), dim=1). -/
def ASPPModule.branches (m : ASPPModule) (x : Tensor4) : Tensor4 :=
  catDim1 [m.feat1 x, m.conv2.forward x, m.conv3.forward x,
    m.conv4.forward x, m.conv5.forward x]

def ASPPModule.forward (m : ASPPModule) (training : Bool)
    (mask : Nat → Nat → Bool) (x : Tensor4) : Tensor4 :=
  dropout2dApply m.dropout training mask (m.bottleneck.forward (m.branches x))

lemma dropout2dApply_n (p t : Bool) (mask : Nat → Nat → Bool) (y : Tensor4) :
    (dropout2dApply p t mask y).n = y.n := by
  unfold dropout2dApply
  split <;> rfl

lemma dropout2dApply_c (p t : Bool) (mask : Nat → Nat → Bool) (y : Tensor4) :
    (dropout2dApply p t mask y).c = y.c := by
  unfold dropout2dApply
  split <;> rfl

lemma dropout2dApply_h (p t : Bool) (mask : Nat → Nat → Bool) (y : Tensor4) :
    (dropout2dApply p t mask y).h = y.h := by
  unfold dropout2dApply
  split <;> rfl

lemma dropout2dApply_w (p t : Bool) (mask : Nat → Nat → Bool) (y : Tensor4) :
    (dropout2dApply p t mask y).w = y.w := by
  unfold dropout2dApply
  split <;> rfl

lemma convOut_k1 (len : Nat) (hl : 1 ≤ len) : convOut len 1 1 0 1 = len := by
  unfold convOut
  omega

lemma convOut_dil (len d : Nat) (hl : 1 ≤ len) : convOut len 3 1 d d = len := by
  unfold convOut
  omega

/-- C6: ASPPModule.forward is a five-branch pipeline: feat1 is the mean over
the frequency axis (dim -2) pushed through the 1x1 conv and repeated h times
(so it is constant along the height axis), branches 3-5 carry the configured
dilations, the five branch features are concatenated along the channel
dimension giving 5 * nout channels, and after the 1x1 bottleneck the output
has shape (B, nout, h, w). -/
theorem aspp_forward_multibranch (nin nout d1 d2 d3 : Nat) (ac : Activ)
    (dr : Bool) (p1 p2 p3 p4 p5 p6 : ConvParams) (m : ASPPModule)
    (hm : m = ASPPModule.make nin nout d1 d2 d3 ac dr p1 p2 p3 p4 p5 p6)
    (tr : Bool) (mask : Nat → Nat → Bool) (x : Tensor4)
    (hh : 1 ≤ x.h) (hw : 1 ≤ x.w) :
    m.conv3.dilation = d1 ∧ m.conv4.dilation = d2 ∧ m.conv5.dilation = d3 ∧
    (m.feat1 x).h = x.h ∧
    (∀ b ch i i2 j, (m.feat1 x).data b ch i j = (m.feat1 x).data b ch i2 j) ∧
    (∀ b ch i j, b < x.n → ch < nout → j < x.w →
      (m.feat1 x).data b ch i j =
        (m.conv1.forward (meanDim2Keep x)).data b ch 0 j) ∧
    (m.branches x).n = x.n ∧ (m.branches x).c = 5 * nout ∧
    (m.branches x).h = x.h ∧ (m.branches x).w = x.w ∧
    (m.forward tr mask x).n = x.n ∧ (m.forward tr mask x).c = nout ∧
    (m.forward tr mask x).h = x.h ∧ (m.forward tr mask x).w = x.w := by
  subst hm
  refine ⟨rfl, rfl, rfl, ?_, ?_, ?_, ?_, ?_, ?_, ?_, ?_, ?_, ?_, ?_⟩
  · simp only [ASPPModule.feat1, Tensor4.repeat4, Conv2DBNActiv.forward,
      ASPPModule.make, Conv2DBNActiv.make]
    show convOut 1 1 1 0 1 * x.h = x.h
    unfold convOut
    omega
  · intro b ch i i2 j
    simp only [ASPPModule.feat1, Tensor4.repeat4]
    have h1 : ((ASPPModule.make nin nout d1 d2 d3 ac dr p1 p2 p3 p4 p5
        p6).conv1.forward (meanDim2Keep x)).h = 1 := by
      show convOut 1 1 1 0 1 = 1
      unfold convOut
      omega
    rw [h1]
    rw [Nat.mod_one, Nat.mod_one]
  · intro b ch i j hb hch hj
    simp only [ASPPModule.feat1, Tensor4.repeat4]
    have h1 : ((ASPPModule.make nin nout d1 d2 d3 ac dr p1 p2 p3 p4 p5
        p6).conv1.forward (meanDim2Keep x)).h = 1 := by
      show convOut 1 1 1 0 1 = 1
      unfold convOut
      omega
    have h2 : ((ASPPModule.make nin nout d1 d2 d3 ac dr p1 p2 p3 p4 p5
        p6).conv1.forward (meanDim2Keep x)).n = x.n := rfl
    have h3 : ((ASPPModule.make nin nout d1 d2 d3 ac dr p1 p2 p3 p4 p5
        p6).conv1.forward (meanDim2Keep x)).c = nout := rfl
    have h4 : ((ASPPModule.make nin nout d1 d2 d3 ac dr p1 p2 p3 p4 p5
        p6).conv1.forward (meanDim2Keep x)).w = x.w := by
      show convOut x.w 1 1 0 1 = x.w
      exact convOut_k1 x.w hw
    rw [h1, h2, h3, h4, Nat.mod_one, Nat.mod_eq_of_lt hb, Nat.mod_eq_of_lt hch,
      Nat.mod_eq_of_lt hj]
  · simp only [ASPPModule.branches, catDim1, ASPPModule.feat1, Tensor4.repeat4,
      Conv2DBNActiv.forward, meanDim2Keep]
    omega
  · simp only [ASPPModule.branches, catDim1, ASPPModule.feat1, Tensor4.repeat4,
      Conv2DBNActiv.forward, meanDim2Keep, ASPPModule.make, Conv2DBNActiv.make]
    omega
  · simp only [ASPPModule.branches, catDim1, ASPPModule.feat1, Tensor4.repeat4,
      Conv2DBNActiv.forward, meanDim2Keep, ASPPModule.make, Conv2DBNActiv.make,
      convOut]
    omega
  · simp only [ASPPModule.branches, catDim1, ASPPModule.feat1, Tensor4.repeat4,
      Conv2DBNActiv.forward, meanDim2Keep, ASPPModule.make, Conv2DBNActiv.make,
      convOut]
    omega
  · rw [ASPPModule.forward, dropout2dApply_n]
    simp only [ASPPModule.branches, catDim1, ASPPModule.feat1, Tensor4.repeat4,
      Conv2DBNActiv.forward, meanDim2Keep, ASPPModule.make, Conv2DBNActiv.make]
    omega
  · rw [ASPPModule.forward, dropout2dApply_c]
    rfl
  · rw [ASPPModule.forward, dropout2dApply_h]
    simp only [ASPPModule.branches, catDim1, ASPPModule.feat1, Tensor4.repeat4,
      Conv2DBNActiv.forward, meanDim2Keep, ASPPModule.make, Conv2DBNActiv.make,
      convOut]
    omega
  · rw [ASPPModule.forward, dropout2dApply_w]
    simp only [ASPPModule.branches, catDim1, ASPPModule.feat1, Tensor4.repeat4,
      Conv2DBNActiv.forward, meanDim2Keep, ASPPModule.make, Conv2DBNActiv.make,
      convOut]
    omega

def asppP : ConvParams := ⟨fun _ _ _ _ => 0, fun _ => 1, fun _ => 0⟩

def aspp0 : ASPPModule :=
  ASPPModule.make 1 1 4 8 12 Activ.relu false asppP asppP asppP asppP asppP asppP

def x1111 : Tensor4 := ⟨1, 1, 1, 1, fun _ _ _ _ => 0⟩

/-- C6 witness: the multibranch pipeline at a concrete ASPP module built
with the default dilations (4, 8, 12) on a concrete input. -/
theorem aspp_forward_multibranch_witness :
    aspp0.conv3.dilation = 4 ∧ aspp0.conv4.dilation = 8 ∧
    aspp0.conv5.dilation = 12 ∧
    (aspp0.feat1 x1111).h = x1111.h ∧
    (∀ b ch i i2 j, (aspp0.feat1 x1111).data b ch i j =
      (aspp0.feat1 x1111).data b ch i2 j) ∧
    (∀ b ch i j, b < x1111.n → ch < 1 → j < x1111.w →
      (aspp0.feat1 x1111).data b ch i j =
        (aspp0.conv1.forward (meanDim2Keep x1111)).data b ch 0 j) ∧
    (aspp0.branches x1111).n = x1111.n ∧ (aspp0.branches x1111).c = 5 * 1 ∧
    (aspp0.branches x1111).h = x1111.h ∧ (aspp0.branches x1111).w = x1111.w ∧
    (aspp0.forward false (fun _ _ => true) x1111).n = x1111.n ∧
    (aspp0.forward false (fun _ _ => true) x1111).c = 1 ∧
    (aspp0.forward false (fun _ _ => true) x1111).h = x1111.h ∧
    (aspp0.forward false (fun _ _ => true) x1111).w = x1111.w :=
  aspp_forward_multibranch 1 1 4 8 12 Activ.relu false asppP asppP asppP asppP
    asppP asppP aspp0 rfl false (fun _ _ => true) x1111 (by decide) (by decide)

lemma dropout2d_eval (p : Bool) (mask : Nat → Nat → Bool) (y : Tensor4) :
    dropout2dApply p false mask y = y := by
  unfold dropout2dApply
  simp

/-- C3 (amended): with the dropout layers inactive (outside training), every
forward in the file is a pure function of its input tensors and trained
parameters; in particular the outputs of Decoder.forward and
ASPPModule.forward do not depend on the sampled dropout mask. -/
theorem forward_eval_mask_independent (md : Decoder) (ma : ASPPModule)
    (mask1 mask2 : Nat → Nat → Bool) (x : Tensor4) (skip : Option Tensor4)
    (fl : Bool) :
    Decoder.forward md false mask1 x skip fl =
      Decoder.forward md false mask2 x skip fl ∧
    ASPPModule.forward ma false mask1 x = ASPPModule.forward ma false mask2 x := by
  constructor
  · cases skip with
    | none => simp [Decoder.forward, dropout2d_eval]
    | some s =>
      cases hc : crop_center s (if fl then interpBilinear2x x else interpNearest2x x) with
      | error e => simp [Decoder.forward, hc]
      | ok sc => simp [Decoder.forward, hc, dropout2d_eval]
  · simp [ASPPModule.forward, dropout2d_eval]

def exceptData00 (r : Except String Tensor4) : ℚ :=
  match r with
  | Except.ok t => t.data 0 0 0 0
  | Except.error _ => 0

def cexDecoder : Decoder :=
  Decoder.make 1 1 3 1 1 Activ.relu true ⟨fun _ _ _ _ => 1, fun _ => 1, fun _ => 0⟩

def cexInput : Tensor4 := ⟨1, 1, 1, 1, fun _ _ _ _ => 1⟩

/-- C3 counterexample: a Decoder built with dropout=True, run in training
mode (the construction-time default of the framework) on the same input with
the same trained parameters, produces different outputs for two draws of the
dropout mask (kept channel scaled by 10/9 versus dropped channel zeroed), so
forward is not a pure function of the input tensors and parameters alone. -/
theorem decoder_training_runs_differ :
    Decoder.forward cexDecoder true (fun _ _ => true) cexInput none false ≠
      Decoder.forward cexDecoder true (fun _ _ => false) cexInput none false := by
  intro hcon
  have h2 := congrArg exceptData00 hcon
  have hL : exceptData00
      (Decoder.forward cexDecoder true (fun _ _ => true) cexInput none false) =
      40 / 9 := by
    norm_num [exceptData00, Decoder.forward, cexDecoder, Decoder.make,
      Conv2DBNActiv.make, Conv2DBNActiv.forward, dropout2dApply, interpNearest2x,
      cexInput, Tensor4.padGet, Activ.apply, Finset.sum_range_succ,
      Finset.sum_range_zero, convOut, max_def]
    rw [show (Finset.filter (fun x => 1 ≤ x ∧ x < 3) (Finset.range 3)).card = 2
      from by decide]
    norm_num
  have hR : exceptData00
      (Decoder.forward cexDecoder true (fun _ _ => false) cexInput none false) =
      0 := by
    norm_num [exceptData00, Decoder.forward, cexDecoder, Decoder.make,
      Conv2DBNActiv.make, Conv2DBNActiv.forward, dropout2dApply, interpNearest2x,
      cexInput, Tensor4.padGet, Activ.apply, Finset.sum_range_succ,
      Finset.sum_range_zero, convOut, max_def]
  rw [hL, hR] at h2
  norm_num at h2

/-- The nn.Module subclasses declared in src/lib/layers.py, in source order:
class Conv2DBNActiv(nn.Module), class Encoder(nn.Module),
class Decoder(nn.Module), class Mean(nn.Module), class ASPPModule(nn.Module),
class LSTMModule(nn.Module). -/
def moduleClasses : List String :=
  ["Conv2DBNActiv", "Encoder", "Decoder", "Mean", "ASPPModule", "LSTMModule"]

/-- C5 counterexample: the file does not define five nn.Module subclasses. -/
theorem moduleClasses_count_ne_five : ¬ moduleClasses.length = 5 := by decide

/-- C5 (amended): src/lib/layers.py defines exactly six distinct nn.Module
subclasses (the count in the claim misses one of them, the Mean helper
module). -/
theorem moduleClasses_count_six :
    moduleClasses.Nodup ∧ moduleClasses.length = 6 := by decide

/-- One direction of a recurrent layer: the per-step cell function (the LSTM
gate equations are framework-defined parameters of the module) mapping an
input vector and the carried (hidden, cell) state to the next state. -/
structure RNNCell where
  step : (Nat → ℚ) → ((Nat → ℚ) × (Nat → ℚ)) → ((Nat → ℚ) × (Nat → ℚ))

/-- State of the recurrence after consuming inputs 0..t, from a zero initial
state. -/
def RNNCell.runFrom (cell : RNNCell) (inp : Nat → Nat → ℚ) :
    Nat → ((Nat → ℚ) × (Nat → ℚ))
  | 0 => cell.step (inp 0) (fun _ => 0, fun _ => 0)
  | t + 1 => cell.step (inp (t + 1)) (cell.runFrom inp t)

/-- Bidirectional recurrent layer on a (seq, batch, feature) tensor: at each
time step the forward hidden state (features 0..H-1) is concatenated with
the backward hidden state (features H..2H-1), H being the hidden size. -/
def biLSTMOut (cf cb : RNNCell) (hiddenW : Nat) (x : Tensor3) : Tensor3 :=
  ⟨x.d0, x.d1, 2 * hiddenW, fun t nIdx j =>
    if j < hiddenW then (cf.runFrom (fun k => x.data k nIdx) t).1 j
    else (cb.runFrom (fun k => x.data (x.d0 - 1 - k) nIdx) (x.d0 - 1 - t)).1
      (j - hiddenW)⟩

/-- LSTMModule from src/lib/layers.py: a 1x1 conv down to one channel, a
bidirectional LSTM with hidden_size = nout_lstm // 2, and a dense head
Linear(nout_lstm, nin_lstm) + BatchNorm1d + ReLU. -/
structure LSTMModule where
  nin_conv : Nat
  nin_lstm : Nat
  nout_lstm : Nat
  conv : Conv2DBNActiv
  cellF : RNNCell
  cellB : RNNCell
  denseW : Nat → Nat → ℚ
  denseB : Nat → ℚ
  bnScale : Nat → ℚ
  bnShift : Nat → ℚ

def LSTMModule.make (nin_conv nin_lstm nout_lstm : Nat) (p : ConvParams)
    (cellF cellB : RNNCell) (denseW : Nat → Nat → ℚ) (denseB : Nat → ℚ)
    (bnScale bnShift : Nat → ℚ) : LSTMModule :=
  ⟨nin_conv, nin_lstm, nout_lstm,
   Conv2DBNActiv.make nin_conv 1 1 1 0 1 Activ.relu p,
   cellF, cellB, denseW, denseB, bnScale, bnShift⟩

/-- The dense head applied to one row: Linear (with bias) over nout_lstm
features, then the BatchNorm1d affine at fixed statistics, then ReLU. -/
def LSTMModule.dense (m : LSTMModule) (v : Nat → ℚ) (o : Nat) : ℚ :=
  max 0 (m.bnScale o *
    ((∑ i in Finset.range m.nout_lstm, m.denseW o i * v i) + m.denseB o) +
    m.bnShift o)

/-- LSTMModule.forward: read (N, _, nbins, nframes) from the input, apply
the 1x1 conv and take channel 0, permute to (nframes, N, nbins), run the
bidirectional LSTM (checking its input_size against nbins, the framework
shape check), flatten to (nframes * N, features), apply the dense head
(checking the Linear in_features against the LSTM output width, the
framework matmul shape check), reshape to (nframes, N, 1, nbins) and permute
back to (N, 1, nbins, nframes). -/
def LSTMModule.forward (m : LSTMModule) (x : Tensor4) : Option Tensor4 :=
  let N := x.n
  let nbins := x.h
  let nframes := x.w
  let convOutT := m.conv.forward x
  let hp : Tensor3 := ⟨nframes, N, nbins, fun t a b => convOutT.data a 0 b t⟩
  if hp.d2 = m.nin_lstm then
    let ho := biLSTMOut m.cellF m.cellB (m.nout_lstm / 2) hp
    if ho.d2 = m.nout_lstm then
      let mat2 : Nat → Nat → ℚ := fun r o =>
        m.dense (fun j => ho.data (r / N) (r % N) j) o
      some ⟨N, 1, nbins, nframes, fun a ch b t => mat2 ((t * N + a) * 1 + ch) b⟩
    else none
  else none

/-- C10: LSTMModule has the unstated precondition that nout_lstm is even:
the bidirectional LSTM outputs 2 * (nout_lstm / 2) features per step while
the dense Linear consumes nout_lstm features, so (for an input whose bins
axis matches nin_lstm) forward passes the framework width checks exactly
when nout_lstm is even. -/
theorem lstm_dense_width_iff_even (m : LSTMModule) (x : Tensor4)
    (hb : x.h = m.nin_lstm) :
    ((LSTMModule.forward m x).isSome ↔ Even m.nout_lstm) ∧
    (biLSTMOut m.cellF m.cellB (m.nout_lstm / 2)
        ⟨x.w, x.n, x.h, fun t a b => (m.conv.forward x).data a 0 b t⟩).d2 =
      2 * (m.nout_lstm / 2) := by
  have hiff : 2 * (m.nout_lstm / 2) = m.nout_lstm ↔ Even m.nout_lstm := by
    constructor
    · intro h
      exact ⟨m.nout_lstm / 2, by omega⟩
    · rintro ⟨k, hk⟩
      omega
  have hd2 : (biLSTMOut m.cellF m.cellB (m.nout_lstm / 2)
      ⟨x.w, x.n, x.h, fun t a b => (m.conv.forward x).data a 0 b t⟩).d2 =
      2 * (m.nout_lstm / 2) := rfl
  constructor
  · unfold LSTMModule.forward
    dsimp only
    rw [if_pos hb, hd2]
    by_cases he : 2 * (m.nout_lstm / 2) = m.nout_lstm
    · rw [if_pos he]
      simpa using hiff.1 he
    · rw [if_neg he]
      simpa using fun h => he (hiff.2 h)
  · rfl

def rnnCell0 : RNNCell := ⟨fun _ s => s⟩

def lstm0 : LSTMModule :=
  LSTMModule.make 1 2 4 asppP rnnCell0 rnnCell0 (fun _ _ => 1) (fun _ => 0)
    (fun _ => 1) (fun _ => 0)

def xLstm : Tensor4 := ⟨1, 1, 2, 3, fun _ _ _ _ => 1⟩

/-- C10 witness: the width agreement at a concrete module with
nout_lstm = 4 and a matching concrete input. -/
theorem lstm_dense_width_iff_even_witness :
    ((LSTMModule.forward lstm0 xLstm).isSome ↔ Even lstm0.nout_lstm) ∧
    (biLSTMOut lstm0.cellF lstm0.cellB (lstm0.nout_lstm / 2)
        ⟨xLstm.w, xLstm.n, xLstm.h,
          fun t a b => (lstm0.conv.forward xLstm).data a 0 b t⟩).d2 =
      2 * (lstm0.nout_lstm / 2) :=
  lstm_dense_width_iff_even lstm0 xLstm rfl

/-- C4: LSTMModule.forward reshapes to feed the bidirectional recurrent
layer and reshapes back: for an input of shape (N, nin_conv, nbins, nframes)
with nbins = nin_lstm (and nout_lstm even, the precondition the dense width
check needs), the output exists, has shape (N, 1, nbins, nframes), and its
entry at (a, 0, b, t) is the dense head applied to the recurrent features of
time step t and batch element a, i.e. the final reshape and permute restore
the (batch, channel, bins, frames) layout the initial permute departed
from. -/
theorem lstm_forward_restores_layout (m : LSTMModule) (x : Tensor4)
    (hb : x.h = m.nin_lstm) (he : 2 * (m.nout_lstm / 2) = m.nout_lstm) :
    ∃ y, LSTMModule.forward m x = some y ∧
      y.n = x.n ∧ y.c = 1 ∧ y.h = x.h ∧ y.w = x.w ∧
      ∀ a b t, a < x.n →
        y.data a 0 b t =
          m.dense (fun j => (biLSTMOut m.cellF m.cellB (m.nout_lstm / 2)
            ⟨x.w, x.n, x.h, fun tt aa bb => (m.conv.forward x).data aa 0 bb tt⟩).data
            t a j) b := by
  have hfwd : LSTMModule.forward m x = some ⟨x.n, 1, x.h, x.w, fun a ch b t =>
      m.dense (fun j => (biLSTMOut m.cellF m.cellB (m.nout_lstm / 2)
        ⟨x.w, x.n, x.h, fun tt aa bb => (m.conv.forward x).data aa 0 bb tt⟩).data
        (((t * x.n + a) * 1 + ch) / x.n) (((t * x.n + a) * 1 + ch) % x.n) j) b⟩ := by
    unfold LSTMModule.forward
    dsimp only
    rw [if_pos hb,
      show (biLSTMOut m.cellF m.cellB (m.nout_lstm / 2)
        ⟨x.w, x.n, x.h, fun t a b => (m.conv.forward x).data a 0 b t⟩).d2 =
        2 * (m.nout_lstm / 2) from rfl,
      if_pos he]
  refine ⟨_, hfwd, rfl, rfl, rfl, rfl, ?_⟩
  intro a b t ha
  have hN : 0 < x.n := by omega
  have hdiv : ((t * x.n + a) * 1 + 0) / x.n = t := by
    rw [Nat.mul_one, Nat.add_zero,
      show t * x.n + a = a + x.n * t from by ring,
      Nat.add_mul_div_left a t hN, Nat.div_eq_of_lt ha, Nat.zero_add]
  have hmod : ((t * x.n + a) * 1 + 0) % x.n = a := by
    rw [Nat.mul_one, Nat.add_zero,
      show t * x.n + a = a + x.n * t from by ring,
      Nat.add_mul_mod_self_left, Nat.mod_eq_of_lt ha]
  show m.dense (fun j => (biLSTMOut m.cellF m.cellB (m.nout_lstm / 2)
      ⟨x.w, x.n, x.h, fun tt aa bb => (m.conv.forward x).data aa 0 bb tt⟩).data
      (((t * x.n + a) * 1 + 0) / x.n) (((t * x.n + a) * 1 + 0) % x.n) j) b =
    m.dense (fun j => (biLSTMOut m.cellF m.cellB (m.nout_lstm / 2)
      ⟨x.w, x.n, x.h, fun tt aa bb => (m.conv.forward x).data aa 0 bb tt⟩).data
      t a j) b
  rw [hdiv, hmod]

/-- C4 witness: the restored layout at a concrete module and input of shape
(1, 1, 2, 3). -/
theorem lstm_forward_restores_layout_witness :
    ∃ y, LSTMModule.forward lstm0 xLstm = some y ∧
      y.n = xLstm.n ∧ y.c = 1 ∧ y.h = xLstm.h ∧ y.w = xLstm.w ∧
      ∀ a b t, a < xLstm.n →
        y.data a 0 b t =
          lstm0.dense (fun j => (biLSTMOut lstm0.cellF lstm0.cellB
            (lstm0.nout_lstm / 2)
            ⟨xLstm.w, xLstm.n, xLstm.h,
              fun tt aa bb => (lstm0.conv.forward xLstm).data aa 0 bb tt⟩).data
            t a j) b :=
  lstm_forward_restores_layout lstm0 xLstm rfl rfl

lemma interp_if_n (x : Tensor4) (fl : Bool) :
    (if fl then interpBilinear2x x else interpNearest2x x).n = x.n := by
  cases fl <;> rfl

lemma interp_if_c (x : Tensor4) (fl : Bool) :
    (if fl then interpBilinear2x x else interpNearest2x x).c = x.c := by
  cases fl <;> rfl

lemma interp_if_h (x : Tensor4) (fl : Bool) :
    (if fl then interpBilinear2x x else interpNearest2x x).h = 2 * x.h := by
  cases fl <;> rfl

/-- torch.cat raises unless all tensors agree on every dimension other than
the concatenation one; this wrapper adds that framework check to the total
concatenation catDim1. -/
def catDim1Checked (ts : List Tensor4) : Option Tensor4 :=
  if ∀ t ∈ ts, ∀ u ∈ ts, t.n = u.n ∧ t.h = u.h ∧ t.w = u.w then
    some (catDim1 ts)
  else none

/-- Conv2d raises when the input channel count differs from the layer's nin
or the effective kernel exceeds the padded input along either spatial axis;
this wrapper adds those framework checks to the total Conv2DBNActiv.forward. -/
def Conv2DBNActiv.forwardChecked (l : Conv2DBNActiv) (x : Tensor4) :
    Option Tensor4 :=
  if x.c = l.nin ∧ l.dilation * (l.ksize - 1) + 1 ≤ x.h + 2 * l.pad ∧
      l.dilation * (l.ksize - 1) + 1 ≤ x.w + 2 * l.pad then
    some (l.forward x)
  else none

/-- Decoder.forward with every raise source explicit: the crop_center
ValueError (its message propagated) together with the framework shape
checks of torch.cat and Conv2d. -/
def Decoder.forwardChecked (m : Decoder) (training : Bool)
    (mask : Nat → Nat → Bool) (x : Tensor4) (skip : Option Tensor4)
    (fixed_length : Bool) : Except String Tensor4 :=
  let xu := if fixed_length then interpBilinear2x x else interpNearest2x x
  match skip with
  | none =>
    match m.conv1.forwardChecked xu with
    | some h => Except.ok (dropout2dApply m.dropout training mask h)
    | none => Except.error "conv2d shape check failed"
  | some s =>
    match crop_center s xu with
    | Except.error e => Except.error e
    | Except.ok sc =>
      match catDim1Checked [xu, sc] with
      | none => Except.error "cat dimension mismatch"
      | some xc =>
        match m.conv1.forwardChecked xc with
        | some h => Except.ok (dropout2dApply m.dropout training mask h)
        | none => Except.error "conv2d shape check failed"

def lstmOdd : LSTMModule :=
  LSTMModule.make 1 2 3 asppP rnnCell0 rnnCell0 (fun _ _ => 1) (fun _ => 0)
    (fun _ => 1) (fun _ => 0)

/-- C2 counterexample: an operation in the file fails although no
crop_center precondition is violated (crop_center is not even reached):
LSTMModule.forward, on an input whose bins axis matches nin_lstm, fails at
the Linear width check because nout_lstm = 3 is odd — in the real program a
framework RuntimeError, refuting that under h1.size(3) >= h2.size(3) no
operation in the file raises. -/
theorem lstm_forward_fails_without_crop_violation :
    LSTMModule.forward lstmOdd xLstm = none := by
  rfl

/-- C2 (amended): crop_center raises its ValueError exactly when
h1.size(3) < h2.size(3), and that raise statement is the only explicit
error path in the module set; the framework shape checks are further,
implicit raise sources (LSTMModule's width check fails for odd nout_lstm
with no crop involved, and Decoder.forward is additionally subject to the
torch.cat dimension-agreement and Conv2d shape checks).  When those
framework checks pass, Decoder.forward — the sole caller of crop_center —
raises exactly when the skip tensor is narrower than the upsampled input,
and never raises without a skip. -/
theorem crop_center_only_explicit_raise :
    (∀ h1 h2 : Tensor4, (∃ e, crop_center h1 h2 = Except.error e) ↔ h1.w < h2.w) ∧
    (∀ (m : Decoder) (tr : Bool) (mask : Nat → Nat → Bool) (x s : Tensor4)
        (fl : Bool),
      s.n = x.n → s.h = 2 * x.h → x.c + s.c = m.conv1.nin →
      m.conv1.dilation * (m.conv1.ksize - 1) + 1 ≤ 2 * x.h + 2 * m.conv1.pad →
      m.conv1.dilation * (m.conv1.ksize - 1) + 1 ≤ 2 * x.w + 2 * m.conv1.pad →
      ((∃ e, Decoder.forwardChecked m tr mask x (some s) fl = Except.error e) ↔
        s.w < 2 * x.w)) ∧
    (∀ (m : Decoder) (tr : Bool) (mask : Nat → Nat → Bool) (x : Tensor4)
        (fl : Bool),
      x.c = m.conv1.nin →
      m.conv1.dilation * (m.conv1.ksize - 1) + 1 ≤ 2 * x.h + 2 * m.conv1.pad →
      m.conv1.dilation * (m.conv1.ksize - 1) + 1 ≤ 2 * x.w + 2 * m.conv1.pad →
      ∃ y, Decoder.forwardChecked m tr mask x none fl = Except.ok y) := by
  refine ⟨crop_center_error_iff, ?_, ?_⟩
  · intro m tr mask x s fl hn hh hc hkh hkw
    by_cases hlt : s.w < 2 * x.w
    · obtain ⟨e, he⟩ :=
        (crop_center_error_iff s
          (if fl then interpBilinear2x x else interpNearest2x x)).2
          (by rw [interp_if_w]; exact hlt)
      simp only [Decoder.forwardChecked, he]
      exact iff_of_true ⟨e, rfl⟩ hlt
    · obtain ⟨sc, hok, hscn, hscc, hsch, hscw, _⟩ :=
        crop_center_total s (if fl then interpBilinear2x x else interpNearest2x x)
          (by rw [interp_if_w]; omega)
      have e1 : (if fl then interpBilinear2x x else interpNearest2x x).n = sc.n := by
        rw [interp_if_n, hscn, hn]
      have e2 : (if fl then interpBilinear2x x else interpNearest2x x).h = sc.h := by
        rw [interp_if_h, hsch, hh]
      have e3 : (if fl then interpBilinear2x x else interpNearest2x x).w = sc.w := by
        rw [hscw]
      have hagree : ∀ t ∈ [if fl then interpBilinear2x x else interpNearest2x x, sc],
          ∀ u ∈ [if fl then interpBilinear2x x else interpNearest2x x, sc],
          t.n = u.n ∧ t.h = u.h ∧ t.w = u.w := by
        intro t ht u hu
        have hts : t = (if fl then interpBilinear2x x else interpNearest2x x) ∨
            t = sc := by simpa using ht
        have hus : u = (if fl then interpBilinear2x x else interpNearest2x x) ∨
            u = sc := by simpa using hu
        rcases hts with rfl | rfl <;> rcases hus with rfl | rfl
        · exact ⟨rfl, rfl, rfl⟩
        · exact ⟨e1, e2, e3⟩
        · exact ⟨e1.symm, e2.symm, e3.symm⟩
        · exact ⟨rfl, rfl, rfl⟩
      have hcat : catDim1Checked
          [if fl then interpBilinear2x x else interpNearest2x x, sc] =
          some (catDim1 [if fl then interpBilinear2x x else interpNearest2x x, sc]) := by
        unfold catDim1Checked
        rw [if_pos hagree]
      have hcc : (catDim1
          [if fl then interpBilinear2x x else interpNearest2x x, sc]).c =
          m.conv1.nin := by
        show (if fl then interpBilinear2x x else interpNearest2x x).c + sc.c =
          m.conv1.nin
        rw [interp_if_c, hscc]
        exact hc
      have hch : (catDim1
          [if fl then interpBilinear2x x else interpNearest2x x, sc]).h = 2 * x.h := by
        show (if fl then interpBilinear2x x else interpNearest2x x).h = 2 * x.h
        exact interp_if_h x fl
      have hcw : (catDim1
          [if fl then interpBilinear2x x else interpNearest2x x, sc]).w = 2 * x.w := by
        show (if fl then interpBilinear2x x else interpNearest2x x).w = 2 * x.w
        exact interp_if_w x fl
      have hconv : m.conv1.forwardChecked (catDim1
          [if fl then interpBilinear2x x else interpNearest2x x, sc]) =
          some (m.conv1.forward (catDim1
            [if fl then interpBilinear2x x else interpNearest2x x, sc])) := by
        unfold Conv2DBNActiv.forwardChecked
        rw [if_pos]
        refine ⟨hcc, ?_, ?_⟩
        · rw [hch]
          exact hkh
        · rw [hcw]
          exact hkw
      simp only [Decoder.forwardChecked, hok, hcat, hconv]
      refine iff_of_false ?_ hlt
      rintro ⟨e, he⟩
      exact Except.noConfusion he
  · intro m tr mask x fl hc hkh hkw
    have hconv : m.conv1.forwardChecked
        (if fl then interpBilinear2x x else interpNearest2x x) =
        some (m.conv1.forward
          (if fl then interpBilinear2x x else interpNearest2x x)) := by
      unfold Conv2DBNActiv.forwardChecked
      rw [if_pos]
      refine ⟨?_, ?_, ?_⟩
      · rw [interp_if_c]
        exact hc
      · rw [interp_if_h]
        exact hkh
      · rw [interp_if_w]
        exact hkw
    simp only [Decoder.forwardChecked, hconv]
    exact ⟨_, rfl⟩

def sSkip : Tensor4 := ⟨1, 1, 2, 2, fun _ _ _ _ => 0⟩

def decC2 : Decoder := Decoder.make 2 1 3 1 1 Activ.relu false asppP

def decC2b : Decoder := Decoder.make 1 1 3 1 1 Activ.relu false asppP

/-- C2 witness: the raise-iff at a concrete narrow/wide pair, and the
checked Decoder call at a concrete module, input and skip on which every
framework shape check passes. -/
theorem crop_center_only_explicit_raise_witness :
    ((∃ e, crop_center tZero3 tIdx5 = Except.error e) ↔ tZero3.w < tIdx5.w) ∧
    ((∃ e, Decoder.forwardChecked decC2 false (fun _ _ => true) x1111
        (some sSkip) false = Except.error e) ↔ sSkip.w < 2 * x1111.w) ∧
    (∃ y, Decoder.forwardChecked decC2b false (fun _ _ => true) x1111 none false =
      Except.ok y) :=
  ⟨crop_center_only_explicit_raise.1 tZero3 tIdx5,
   crop_center_only_explicit_raise.2.1 decC2 false (fun _ _ => true) x1111 sSkip
     false (by decide) (by decide) (by decide) (by decide) (by decide),
   crop_center_only_explicit_raise.2.2 decC2b false (fun _ _ => true) x1111 false
     (by decide) (by decide) (by decide)⟩
